import Mathlib

/-!
Shallow embedding of the `@tauri-apps/window` plugin client (src/dist-js/index.mjs).

JavaScript numbers are idealized as rationals (ℚ); promises are purified:
an async operation that can reject is a value of `Except String α`, and the
remote side (the host runtime reached through `invoke`) is an explicit
oracle parameter.  Remote calls issued by an operation are reified as an
explicit list of call records, so that "no remote call is made" and
"exactly one call is made" are statable.
-/

namespace TauriWindow

/-- A size or position value object as the JS code builds it: a `type` tag
string together with two numeric components.  `LogicalSize`, `PhysicalSize`,
`LogicalPosition`, `PhysicalPosition` below mirror the four class
constructors of index.mjs (lines 72-140).  Setter arguments may carry an
arbitrary tag (for example `"Unknown"`), hence `type` is an open string. -/
structure SizeValue where
  type : String
  width : ℚ
  height : ℚ
deriving DecidableEq, Repr

/-- A position value object: tag plus `x`/`y` components. -/
structure PositionValue where
  type : String
  x : ℚ
  y : ℚ
deriving DecidableEq, Repr

/-- Embeds `new LogicalSize(width, height)`: sets `this.type = "Logical"`. -/
def LogicalSize (width height : ℚ) : SizeValue :=
  { type := "Logical", width := width, height := height }

/-- Embeds `new PhysicalSize(width, height)`: sets `this.type = "Physical"`. -/
def PhysicalSize (width height : ℚ) : SizeValue :=
  { type := "Physical", width := width, height := height }

/-- Embeds `new LogicalPosition(x, y)`. -/
def LogicalPosition (x y : ℚ) : PositionValue :=
  { type := "Logical", x := x, y := y }

/-- Embeds `new PhysicalPosition(x, y)`. -/
def PhysicalPosition (x y : ℚ) : PositionValue :=
  { type := "Physical", x := x, y := y }

/-- Embeds `PhysicalSize.prototype.toLogical` (index.mjs lines 100-102):
`new LogicalSize(this.width / scaleFactor, this.height / scaleFactor)`. -/
def SizeValue.toLogical (s : SizeValue) (scaleFactor : ℚ) : SizeValue :=
  LogicalSize (s.width / scaleFactor) (s.height / scaleFactor)

/-- Embeds `PhysicalPosition.prototype.toLogical` (index.mjs lines 137-139). -/
def PositionValue.toLogical (p : PositionValue) (scaleFactor : ℚ) : PositionValue :=
  LogicalPosition (p.x / scaleFactor) (p.y / scaleFactor)

/-! ## Remote calls issued by the window manager -/

/-- The serialized `value` argument carried by a `plugin:window|set_*`
remote call, as built inline by the setters: either JSON `null`, a tagged
size record `{type, data: {width, height}}`, or a tagged position record
`{type, data: {x, y}}`. -/
inductive WireValue where
  | nullV : WireValue
  | sizeV (type : String) (width height : ℚ) : WireValue
  | posV (type : String) (x y : ℚ) : WireValue
deriving DecidableEq, Repr

/-- One remote invocation issued through `invoke("plugin:window|...", {label, value})`. -/
structure WindowCall where
  cmd : String
  label : String
  value : WireValue
deriving DecidableEq, Repr

/-- Embeds `WindowManager.setSize` (index.mjs lines 800-814).  A thrown
validation error is `Except.error`; a successful run returns the single
remote call the method issues.  The guard mirrors
`!size || (size.type !== "Logical" && size.type !== "Physical")`. -/
def setSize (label : String) (size : Option SizeValue) : Except String WindowCall :=
  match size with
  | none =>
      .error "the `size` argument must be either a LogicalSize or a PhysicalSize instance"
  | some s =>
      if s.type ≠ "Logical" ∧ s.type ≠ "Physical" then
        .error "the `size` argument must be either a LogicalSize or a PhysicalSize instance"
      else
        .ok { cmd := "plugin:window|set_size", label := label,
              value := .sizeV s.type s.width s.height }

/-- Embeds `WindowManager.setMinSize` (index.mjs lines 826-842).  The guard
mirrors `size && size.type !== "Logical" && size.type !== "Physical"`:
a null/undefined size is accepted and serialized as `null`. -/
def setMinSize (label : String) (size : Option SizeValue) : Except String WindowCall :=
  match size with
  | none =>
      .ok { cmd := "plugin:window|set_min_size", label := label, value := .nullV }
  | some s =>
      if s.type ≠ "Logical" ∧ s.type ≠ "Physical" then
        .error "the `size` argument must be either a LogicalSize or a PhysicalSize instance"
      else
        .ok { cmd := "plugin:window|set_min_size", label := label,
              value := .sizeV s.type s.width s.height }

/-- Embeds `WindowManager.setMaxSize` (index.mjs lines 854-870), identical in
shape to `setMinSize` but targeting `plugin:window|set_max_size`. -/
def setMaxSize (label : String) (size : Option SizeValue) : Except String WindowCall :=
  match size with
  | none =>
      .ok { cmd := "plugin:window|set_max_size", label := label, value := .nullV }
  | some s =>
      if s.type ≠ "Logical" ∧ s.type ≠ "Physical" then
        .error "the `size` argument must be either a LogicalSize or a PhysicalSize instance"
      else
        .ok { cmd := "plugin:window|set_max_size", label := label,
              value := .sizeV s.type s.width s.height }

/-- Embeds `WindowManager.setPosition` (index.mjs lines 882-897). -/
def setPosition (label : String) (position : Option PositionValue) :
    Except String WindowCall :=
  match position with
  | none =>
      .error "the `position` argument must be either a LogicalPosition or a PhysicalPosition instance"
  | some p =>
      if p.type ≠ "Logical" ∧ p.type ≠ "Physical" then
        .error "the `position` argument must be either a LogicalPosition or a PhysicalPosition instance"
      else
        .ok { cmd := "plugin:window|set_position", label := label,
              value := .posV p.type p.x p.y }

/-- Embeds `WindowManager.setCursorPosition` (index.mjs lines 1051-1066). -/
def setCursorPosition (label : String) (position : Option PositionValue) :
    Except String WindowCall :=
  match position with
  | none =>
      .error "the `position` argument must be either a LogicalPosition or a PhysicalPosition instance"
  | some p =>
      if p.type ≠ "Logical" ∧ p.type ≠ "Physical" then
        .error "the `position` argument must be either a LogicalPosition or a PhysicalPosition instance"
      else
        .ok { cmd := "plugin:window|set_cursor_position", label := label,
              value := .posV p.type p.x p.y }

/-- Embeds `WindowManager.close` (index.mjs lines 705-709): one
`plugin:window|close` call carrying only the label. -/
def closeCall (label : String) : WindowCall :=
  { cmd := "plugin:window|close", label := label, value := .nullV }

/-! ## Event bridge (index.mjs lines 13-64) -/

/-- One remote call issued through the `plugin:event|*` invocation names. -/
inductive BridgeCall where
  | listenC (event : String) (windowLabel : Option String) : BridgeCall
  | unlistenC (event : String) (eventId : ℤ) : BridgeCall
  | emitC (event : String) (windowLabel : Option String) : BridgeCall
deriving DecidableEq, Repr

/-- The host runtime reached through `invoke`, restricted to the event
bridge: it decides the outcome of each `plugin:event|listen` call (an opaque
numeric registration id on success) and of each `plugin:event|unlisten`
call. -/
structure EventHost where
  listenResult : String → Option String → Except String ℤ
  unlistenResult : String → ℤ → Except String Unit

/-- The raw event object delivered to a registered callback
(`Event<T>` in event.d.ts lines 9-18). -/
structure JsEvent (P : Type) where
  event : String
  windowLabel : String
  id : ℤ
  payload : P
deriving DecidableEq, Repr

/-- Embeds `_unlisten` (index.mjs lines 13-18): awaits one
`plugin:event|unlisten` call and returns its outcome unchanged.  The first
component is the call issued, the second the settled outcome. -/
def _unlisten (host : EventHost) (event : String) (eventId : ℤ) :
    List BridgeCall × Except String Unit :=
  ([.unlistenC event eventId], host.unlistenResult event eventId)

/-- The unlisten closure returned by the bridge `listen` (index.mjs line 47),
which closes over the event name and the registration id. -/
structure Unlistener where
  event : String
  eventId : ℤ
deriving DecidableEq, Repr

/-- Invoking the unlisten closure: `async () => _unlisten(event, eventId)`.
The outcome of `_unlisten` becomes the outcome of the closure itself. -/
def Unlistener.run (u : Unlistener) (host : EventHost) :
    List BridgeCall × Except String Unit :=
  _unlisten host u.event u.eventId

/-- Embeds the bridge `listen` (index.mjs lines 41-49): one
`plugin:event|listen` call whose numeric reply is captured into the returned
unlisten closure.  The handler forwarded through `transformCallback` plays
no role in the registration outcome and is elided here. -/
def listen (host : EventHost) (event : String) (windowLabel : Option String) :
    List BridgeCall × Except String Unlistener :=
  ([.listenC event windowLabel],
   (host.listenResult event windowLabel).map fun eventId =>
     { event := event, eventId := eventId })

/-- Embeds the callback the bridge `once` registers (index.mjs lines 58-63):
on delivery it calls the caller's handler, then performs
`_unlisten(event, eventData.id).catch(() => \x7b\x7d)` — the cleanup call is
issued but its outcome is discarded.  Returns the handler's result together
with the calls issued. -/
def onceListenerCallback {P A : Type} (host : EventHost) (event : String)
    (handler : JsEvent P → A) (eventData : JsEvent P) : A × List BridgeCall :=
  let result := handler eventData
  let cleanup := _unlisten host event eventData.id
  (result, cleanup.1)

/-! ## Window handle: local listener registry (index.mjs lines 183-292) -/

/-- Embeds `localTauriEvents` (index.mjs line 185). -/
def localTauriEvents : List String := ["tauri://created", "tauri://error"]

/-- Embeds `WebviewWindowHandle` (index.mjs lines 192-197): a label plus a
per-event-name ordered list of locally registered handlers.  Handlers are
compared by identity in the source; the type `H` stands for handler
identities. -/
structure WebviewWindowHandle (H : Type) where
  label : String
  listeners : String → List H

/-- Embeds `WebviewWindowHandle._handleTauriEvent` (index.mjs lines
278-291): for a local event name, appends the handler to that event's list
(creating the list when absent) and reports `true`; otherwise reports
`false` and leaves the registry untouched. -/
def WebviewWindowHandle._handleTauriEvent {H : Type} (h : WebviewWindowHandle H)
    (event : String) (handler : H) : Bool × WebviewWindowHandle H :=
  if event ∈ localTauriEvents then
    (true, { h with listeners := fun e =>
      if e = event then h.listeners e ++ [handler] else h.listeners e })
  else
    (false, h)

/-- JavaScript `Array.prototype.indexOf` restricted to this use: the first
index of `x` in `l`, or `-1` when absent. -/
def jsIndexOf {H : Type} [DecidableEq H] : List H → H → ℤ
  | [], _ => -1
  | a :: as, x =>
      if a = x then 0
      else
        let r := jsIndexOf as x
        if r = -1 then -1 else r + 1

/-- JavaScript `Array.prototype.splice(start, 1)`: a negative `start` counts
back from the end (clamped to `0`), a non-negative `start` is clamped to the
length; one element at the resulting index is removed. -/
def jsSpliceRemoveOne {α : Type} (l : List α) (start : ℤ) : List α :=
  let s : ℕ :=
    if start < 0 then (max ((l.length : ℤ) + start) 0).toNat
    else min start.toNat l.length
  l.take s ++ l.drop (s + 1)

/-- The unlisten closure returned by `WebviewWindowHandle.listen`/`once` for
a local event name (index.mjs lines 219-223 and 248-252):
`listeners.splice(listeners.indexOf(handler), 1)` on the current list. -/
def localUnlisten {H : Type} [DecidableEq H] (event : String) (handler : H)
    (h : WebviewWindowHandle H) : WebviewWindowHandle H :=
  { h with listeners := fun e =>
      if e = event then
        jsSpliceRemoveOne (h.listeners event) (jsIndexOf (h.listeners event) handler)
      else h.listeners e }

/-- The outcome of `WebviewWindowHandle.listen`/`once`: either a local
registration (updated handle plus the data the unlisten closure captures),
or a delegation to the bridge `listen`, or to the bridge `once`, scoped to
the handle's label. -/
inductive ListenOutcome (H : Type) where
  | localReg (newHandle : WebviewWindowHandle H)
      (unlistenEvent : String) (unlistenHandler : H) : ListenOutcome H
  | remoteListen (event : String) (windowLabel : String) (handler : H) : ListenOutcome H
  | remoteOnce (event : String) (windowLabel : String) (handler : H) : ListenOutcome H

/-- Embeds `WebviewWindowHandle.listen` (index.mjs lines 217-226). -/
def WebviewWindowHandle.listenOn {H : Type} (h : WebviewWindowHandle H)
    (event : String) (handler : H) : ListenOutcome H :=
  match h._handleTauriEvent event handler with
  | (true, h2) => .localReg h2 event handler
  | (false, _) => .remoteListen event h.label handler

/-- Embeds `WebviewWindowHandle.once` (index.mjs lines 246-255).  Note the
local branch registers the caller's handler itself, exactly as `listen`
does: no self-removing wrapper is installed. -/
def WebviewWindowHandle.once {H : Type} (h : WebviewWindowHandle H)
    (event : String) (handler : H) : ListenOutcome H :=
  match h._handleTauriEvent event handler with
  | (true, h2) => .localReg h2 event handler
  | (false, _) => .remoteOnce event h.label handler

/-- The observable outcome of `WebviewWindowHandle.emit`: the local handler
invocations performed (each handler paired with the synthesized event object
it receives, in invocation order) and the remote emit call, if one is
issued. -/
structure EmitOutcome (H P : Type) where
  localInvocations : List (H × JsEvent (Option P))
  remoteEmit : Option (String × Option String × Option P)

/-- Embeds `WebviewWindowHandle.emit` (index.mjs lines 267-276): a local
event name invokes every registered handler of this handle in order with
`\x7b event, id: -1, windowLabel: this.label, payload \x7d` and performs no
remote call; any other name issues one `plugin:event|emit` call scoped to
this handle's label. -/
def WebviewWindowHandle.emit {H P : Type} (h : WebviewWindowHandle H)
    (event : String) (payload : Option P) : EmitOutcome H P :=
  if event ∈ localTauriEvents then
    { localInvocations := (h.listeners event).map fun f =>
        (f, { event := event, windowLabel := h.label, id := -1, payload := payload }),
      remoteEmit := none }
  else
    { localInvocations := [], remoteEmit := some (event, some h.label, payload) }

/-! ## Close-requested dispatch (index.mjs lines 1176-1185 and 1335-1348) -/

/-- Embeds `CloseRequestedEvent` (index.mjs lines 1335-1348): the incoming
event's name, originating label and id, plus the mutable `_preventDefault`
boolean. -/
structure CloseRequestedEvent where
  event : String
  windowLabel : String
  id : ℤ
  _preventDefault : Bool
deriving DecidableEq, Repr

/-- Embeds the `CloseRequestedEvent` constructor: copies the incoming
event's fields and initializes `_preventDefault` to `false`. -/
def CloseRequestedEvent.ofEvent {P : Type} (e : JsEvent P) : CloseRequestedEvent :=
  { event := e.event, windowLabel := e.windowLabel, id := e.id, _preventDefault := false }

/-- Embeds `CloseRequestedEvent.preventDefault`. -/
def CloseRequestedEvent.runPreventDefault (c : CloseRequestedEvent) : CloseRequestedEvent :=
  { c with _preventDefault := true }

/-- Embeds `CloseRequestedEvent.isPreventDefault`. -/
def CloseRequestedEvent.isPreventDefault (c : CloseRequestedEvent) : Bool :=
  c._preventDefault

/-- Embeds the listener callback `onCloseRequested` installs (index.mjs
lines 1177-1184).  The caller's possibly-asynchronous handler is purified as
a function from the freshly built wrapper to its settlement: `.ok` with the
wrapper's final state (mutation via `preventDefault` becomes the returned
copy), or `.error` when the handler throws or its promise rejects.  The
callback then issues the `close` call only when the handler settled
successfully and the flag is still unset; a rejection flows into a `void`-ed
promise, so the callback itself always completes and returns only the list of
remote calls it issued. -/
def onCloseRequestedDispatch {P E : Type}
    (handler : CloseRequestedEvent → Except E CloseRequestedEvent)
    (label : String) (e : JsEvent P) : List WindowCall :=
  let evt := CloseRequestedEvent.ofEvent e
  match handler evt with
  | .ok evt2 => if evt2.isPreventDefault then [] else [closeCall label]
  | .error _ => []

/-! ## File-drop listeners (index.mjs lines 1293-1308) -/

/-- Modelled from the spec: the three file-drop remote event names consumed
through the external `TauriEvent` enum of `@tauri-apps/api/event` (not part
of this repository); §6 lists them as window-file-drop,
window-file-drop-hover and window-file-drop-cancelled. -/
def WINDOW_FILE_DROP : String := "tauri://file-drop"

/-- Modelled from the spec: see `WINDOW_FILE_DROP`. -/
def WINDOW_FILE_DROP_HOVER : String := "tauri://file-drop-hover"

/-- Modelled from the spec: see `WINDOW_FILE_DROP`. -/
def WINDOW_FILE_DROP_CANCELLED : String := "tauri://file-drop-cancelled"

/-- The normalized file-drop payload: the tagged union
`\x7b type: "drop", paths \x7d | \x7b type: "hover", paths \x7d |
\x7b type: "cancel" \x7d`. -/
inductive FileDropPayload where
  | drop (paths : List String) : FileDropPayload
  | hover (paths : List String) : FileDropPayload
  | cancel : FileDropPayload
deriving DecidableEq, Repr

/-- The `type` tag string of a normalized file-drop payload. -/
def FileDropPayload.type : FileDropPayload → String
  | .drop _ => "drop"
  | .hover _ => "hover"
  | .cancel => "cancel"

/-- Embeds the drop callback (index.mjs line 1295):
`handler(\x7b ...event, payload: \x7b type: "drop", paths: event.payload \x7d \x7d)`. -/
def fileDropWrapDrop (e : JsEvent (List String)) : JsEvent FileDropPayload :=
  { event := e.event, windowLabel := e.windowLabel, id := e.id,
    payload := .drop e.payload }

/-- Embeds the hover callback (index.mjs line 1298). -/
def fileDropWrapHover (e : JsEvent (List String)) : JsEvent FileDropPayload :=
  { event := e.event, windowLabel := e.windowLabel, id := e.id,
    payload := .hover e.payload }

/-- Embeds the cancel callback (index.mjs line 1301); the raw payload is
dropped. -/
def fileDropWrapCancel {P : Type} (e : JsEvent P) : JsEvent FileDropPayload :=
  { event := e.event, windowLabel := e.windowLabel, id := e.id,
    payload := .cancel }

/-- The three unlisten closures captured by the combined unlisten function
of `onFileDropEvent`. -/
structure FileDropRegistration where
  unlistenFileDrop : Unlistener
  unlistenFileHover : Unlistener
  unlistenCancel : Unlistener
deriving DecidableEq, Repr

/-- Embeds `WindowManager.onFileDropEvent` (index.mjs lines 1293-1308): three
sequential awaited bridge `listen` registrations, one per file-drop event
name, each scoped to this window's label.  A failed registration rejects the
whole promise after the calls made so far. -/
def onFileDropEvent (host : EventHost) (label : String) :
    List BridgeCall × Except String FileDropRegistration :=
  let l1 := listen host WINDOW_FILE_DROP (some label)
  match l1.2 with
  | .error err => (l1.1, .error err)
  | .ok u1 =>
    let l2 := listen host WINDOW_FILE_DROP_HOVER (some label)
    match l2.2 with
    | .error err => (l1.1 ++ l2.1, .error err)
    | .ok u2 =>
      let l3 := listen host WINDOW_FILE_DROP_CANCELLED (some label)
      match l3.2 with
      | .error err => (l1.1 ++ l2.1 ++ l3.1, .error err)
      | .ok u3 =>
          (l1.1 ++ l2.1 ++ l3.1,
           .ok { unlistenFileDrop := u1, unlistenFileHover := u2, unlistenCancel := u3 })

/-- Embeds the combined unlisten closure (index.mjs lines 1303-1307):
`unlistenFileDrop(); unlistenFileHover(); unlistenCancel();` — all three
underlying unlisten calls are initiated unconditionally and none of their
promises is awaited, so the closure returns after issuing the three calls
whatever each outcome is. -/
def FileDropRegistration.combinedUnlisten (r : FileDropRegistration)
    (host : EventHost) : List BridgeCall :=
  (r.unlistenFileDrop.run host).1 ++ (r.unlistenFileHover.run host).1 ++
    (r.unlistenCancel.run host).1

/-! ## Window construction and lookup (index.mjs lines 1382-1433) -/

/-- One `plugin:window|create` remote call; of the options record only the
merged-in label matters to the claims below, the remaining options are
elided. -/
structure CreateCall where
  label : String
deriving DecidableEq, Repr

/-- Embeds the `WebviewWindow` constructor (index.mjs lines 1402-1415):
without `skip` it issues one `create` call (whose later settlement locally
emits tauri://created or tauri://error); with `skip` set it performs no
remote call.  Either way the handle starts with an empty listener
registry and the given label. -/
def newWebviewWindow (H : Type) (label : String) (skip : Bool) :
    WebviewWindowHandle H × List CreateCall :=
  ({ label := label, listeners := fun _ => [] },
   if skip then [] else [{ label := label }])

/-- Embeds `getAll` (index.mjs lines 177-182): one skip-constructed handle
per entry of the host-provided window list (modelled as the list of
labels). -/
def getAll (H : Type) (windows : List String) : List (WebviewWindowHandle H) :=
  windows.map fun w => (newWebviewWindow H w true).1

/-- Embeds `WebviewWindow.getByLabel` (index.mjs lines 1427-1433): a handle
via the skip path when the label appears in the current window list,
`null` otherwise.  The second component collects the `create` calls issued
by the lookup. -/
def getByLabel (H : Type) (windows : List String) (label : String) :
    Option (WebviewWindowHandle H) × List CreateCall :=
  if (getAll H windows).any (fun w => w.label == label) then
    let n := newWebviewWindow H label true
    (some n.1, n.2)
  else
    (none, [])

/-! ## Concrete sample data used by closed statements -/

/-- A host whose `plugin:event|listen` always succeeds with id 42 and whose
`plugin:event|unlisten` always fails. -/
def failingUnlistenHost : EventHost :=
  { listenResult := fun _ _ => .ok 42,
    unlistenResult := fun _ _ => .error "backend unlisten failure" }

/-- A freshly constructed handle with label "main" and no listeners. -/
def sampleHandle : WebviewWindowHandle ℕ :=
  { label := "main", listeners := fun _ => [] }

/-- `sampleHandle` after `once("tauri://created", 7)` took the local
branch: handler 7 sits bare in the registry. -/
def sampleHandleAfterOnce : WebviewWindowHandle ℕ :=
  { label := "main", listeners := fun e => if e = "tauri://created" then [7] else [] }

/-- A handle with two handlers registered on the local created event, used
to exercise the stale-unlisten splice behavior. -/
def sampleHandleTwo : WebviewWindowHandle ℕ :=
  { label := "main", listeners := fun e => if e = "tauri://created" then [3, 5] else [] }

/-- A sample raw close-request event. -/
def sampleCloseEvent : JsEvent Unit :=
  { event := "tauri://close-requested", windowLabel := "main", id := 12, payload := () }

/-- A handler that calls `preventDefault()` and settles successfully. -/
def preventingHandler (c : CloseRequestedEvent) : Except String CloseRequestedEvent :=
  .ok c.runPreventDefault

/-- A handler that settles successfully without touching the flag. -/
def passiveHandler (c : CloseRequestedEvent) : Except String CloseRequestedEvent :=
  .ok c

/-- A handler that throws / rejects. -/
def throwingHandler (_c : CloseRequestedEvent) : Except String CloseRequestedEvent :=
  .error "handler exploded"

/-! ## Shared helper lemmas -/

/-- `Array.prototype.indexOf` yields `-1` exactly when the element is absent. -/
theorem jsIndexOf_eq_neg_one {H : Type} [DecidableEq H] {l : List H} {x : H}
    (hx : x ∉ l) : jsIndexOf l x = -1 := by
  induction l with
  | nil => rfl
  | cons a as ih =>
      have hax : ¬a = x := fun hc => hx (hc ▸ List.mem_cons_self a as)
      have htail : x ∉ as := fun hc => hx (List.mem_cons_of_mem a hc)
      simp [jsIndexOf, hax, ih htail]

/-- `splice(-1, 1)` on a non-empty list removes its last element. -/
theorem jsSpliceRemoveOne_neg_one {α : Type} {l : List α} (hl : l ≠ []) :
    jsSpliceRemoveOne l (-1) = l.dropLast := by
  have hlen : 0 < l.length := List.length_pos.mpr hl
  unfold jsSpliceRemoveOne
  rw [if_pos (by norm_num : (-1 : ℤ) < 0)]
  have hmax : max ((l.length : ℤ) + -1) 0 = (l.length : ℤ) - 1 := by
    rw [max_eq_left] <;> omega
  have htn : ((l.length : ℤ) - 1).toNat = l.length - 1 := by omega
  rw [hmax, htn]
  have hsucc : l.length - 1 + 1 = l.length := by omega
  show List.take (l.length - 1) l ++ List.drop (l.length - 1 + 1) l = l.dropLast
  rw [hsucc, List.drop_length, List.append_nil, List.dropLast_eq_take]

/-! ## Claim theorems -/

/-- C7: for every physical size `(w, h)` and physical position `(x, y)` and
every scale factor `s > 0`, `toLogical s` yields the components divided by
`s`, tagged Logical, while the original value keeps its Physical tag; no
logical-to-physical conversion exists in the embedding, mirroring the
absence of one in the source's public surface. -/
theorem toLogical_spec (w h x y s : ℚ) (_hs : 0 < s) :
    (PhysicalSize w h).toLogical s = LogicalSize (w / s) (h / s) ∧
    ((PhysicalSize w h).toLogical s).type = "Logical" ∧
    (PhysicalPosition x y).toLogical s = LogicalPosition (x / s) (y / s) ∧
    ((PhysicalPosition x y).toLogical s).type = "Logical" ∧
    (PhysicalSize w h).type = "Physical" ∧
    (PhysicalPosition x y).type = "Physical" :=
  ⟨rfl, rfl, rfl, rfl, rfl, rfl⟩

/-- C7 witness: the conversion evaluated at size (10, 6), position (4, 8)
and scale factor 2. -/
theorem toLogical_spec_witness :
    (0 : ℚ) < 2 ∧
    ((PhysicalSize 10 6).toLogical 2 = LogicalSize (10 / 2) (6 / 2) ∧
     ((PhysicalSize 10 6).toLogical 2).type = "Logical" ∧
     (PhysicalPosition 4 8).toLogical 2 = LogicalPosition (4 / 2) (8 / 2) ∧
     ((PhysicalPosition 4 8).toLogical 2).type = "Logical" ∧
     (PhysicalSize 10 6).type = "Physical" ∧
     (PhysicalPosition 4 8).type = "Physical") :=
  ⟨by norm_num, toLogical_spec 10 6 4 8 2 (by norm_num)⟩

/-- C4: every setter that takes a size or position value rejects, with a
synchronously raised validation error and therefore no remote call, any
value whose variant tag is neither Logical nor Physical, and `setSize`,
`setPosition`, `setCursorPosition` also reject null; `setMinSize` and
`setMaxSize` accept null as an unset constraint and issue one remote call
whose value is JSON null. -/
theorem setters_validate_variant_tags (label t : String) (w h x y : ℚ)
    (ht : t ≠ "Logical" ∧ t ≠ "Physical") :
    (setSize label none).isOk = false ∧
    (setSize label (some ⟨t, w, h⟩)).isOk = false ∧
    (setMinSize label (some ⟨t, w, h⟩)).isOk = false ∧
    (setMaxSize label (some ⟨t, w, h⟩)).isOk = false ∧
    (setPosition label none).isOk = false ∧
    (setPosition label (some ⟨t, x, y⟩)).isOk = false ∧
    (setCursorPosition label none).isOk = false ∧
    (setCursorPosition label (some ⟨t, x, y⟩)).isOk = false ∧
    setMinSize label none =
      .ok { cmd := "plugin:window|set_min_size", label := label, value := .nullV } ∧
    setMaxSize label none =
      .ok { cmd := "plugin:window|set_max_size", label := label, value := .nullV } := by
  refine ⟨rfl, ?_, ?_, ?_, rfl, ?_, rfl, ?_, rfl, rfl⟩ <;>
    simp [setSize, setMinSize, setMaxSize, setPosition, setCursorPosition,
      ht.1, ht.2, Except.isOk, Except.toBool]

/-- C4 witness: the setters evaluated at tag "Unknown" and at null. -/
theorem setters_validate_variant_tags_witness :
    (("Unknown" : String) ≠ "Logical" ∧ ("Unknown" : String) ≠ "Physical") ∧
    ((setSize "main" none).isOk = false ∧
     (setSize "main" (some ⟨"Unknown", 600, 500⟩)).isOk = false ∧
     (setMinSize "main" (some ⟨"Unknown", 600, 500⟩)).isOk = false ∧
     (setMaxSize "main" (some ⟨"Unknown", 600, 500⟩)).isOk = false ∧
     (setPosition "main" none).isOk = false ∧
     (setPosition "main" (some ⟨"Unknown", 10, 20⟩)).isOk = false ∧
     (setCursorPosition "main" none).isOk = false ∧
     (setCursorPosition "main" (some ⟨"Unknown", 10, 20⟩)).isOk = false ∧
     setMinSize "main" none =
       .ok { cmd := "plugin:window|set_min_size", label := "main", value := .nullV } ∧
     setMaxSize "main" none =
       .ok { cmd := "plugin:window|set_max_size", label := "main", value := .nullV }) :=
  ⟨by refine ⟨?_, ?_⟩ <;> simp,
   setters_validate_variant_tags "main" "Unknown" 600 500 10 20 (by refine ⟨?_, ?_⟩ <;> simp)⟩

/-- C5: on a local event name, `emit` invokes exactly the currently
registered handlers of this handle, synchronously in registration order,
each receiving a synthesized event object carrying the event name, this
handle's label, the payload and id `-1`; no remote call is made, and every
invoked handler comes from this handle's own registry (so handlers held by
a handle with a different label are never invoked). -/
theorem emit_local_event_spec {H P : Type} (h : WebviewWindowHandle H)
    (event : String) (payload : Option P) (hloc : event ∈ localTauriEvents) :
    (h.emit event payload).localInvocations =
      (h.listeners event).map (fun f =>
        (f, { event := event, windowLabel := h.label, id := -1, payload := payload })) ∧
    (h.emit event payload).remoteEmit = none ∧
    ∀ g ev, (g, ev) ∈ (h.emit event payload).localInvocations →
      g ∈ h.listeners event := by
  refine ⟨?_, ?_, ?_⟩
  · simp [WebviewWindowHandle.emit, hloc]
  · simp [WebviewWindowHandle.emit, hloc]
  · intro g ev hg
    simp only [WebviewWindowHandle.emit, if_pos hloc, List.mem_map] at hg
    obtain ⟨a, ha, heq⟩ := hg
    obtain ⟨rfl, -⟩ := Prod.mk.injEq .. ▸ heq
    exact ha

/-- C5 witness: emitting tauri://created on a handle with handlers 3 and 5. -/
theorem emit_local_event_spec_witness :
    "tauri://created" ∈ localTauriEvents ∧
    ((sampleHandleTwo.emit "tauri://created" (none : Option ℕ)).localInvocations =
      (sampleHandleTwo.listeners "tauri://created").map (fun f =>
        (f, { event := "tauri://created", windowLabel := sampleHandleTwo.label,
              id := -1, payload := none })) ∧
     (sampleHandleTwo.emit "tauri://created" (none : Option ℕ)).remoteEmit = none ∧
     ∀ g ev, (g, ev) ∈
        (sampleHandleTwo.emit "tauri://created" (none : Option ℕ)).localInvocations →
        g ∈ sampleHandleTwo.listeners "tauri://created") :=
  ⟨by simp [localTauriEvents],
   emit_local_event_spec sampleHandleTwo "tauri://created" none (by simp [localTauriEvents])⟩

/-- C9: invoking a local unlisten closure again after its handler was
already removed, while the listener list for that event name is still
non-empty, removes the last handler in the list — `indexOf` yields `-1`
and `splice(-1, 1)` takes the final element — so a subsequent emission no
longer invokes that unrelated handler. -/
theorem stale_unlisten_removes_last {H : Type} [DecidableEq H]
    (h : WebviewWindowHandle H) (event : String) (handler : H)
    (_hloc : event ∈ localTauriEvents)
    (habsent : handler ∉ h.listeners event)
    (hne : h.listeners event ≠ []) :
    (localUnlisten event handler h).listeners event = (h.listeners event).dropLast ∧
    ∀ (P : Type) (payload : Option P),
      ((localUnlisten event handler h).emit event payload).localInvocations.map
          Prod.fst =
        (h.listeners event).dropLast := by
  have key : (localUnlisten event handler h).listeners event =
      (h.listeners event).dropLast := by
    simp [localUnlisten, jsIndexOf_eq_neg_one habsent, jsSpliceRemoveOne_neg_one hne]
  refine ⟨key, ?_⟩
  intro P payload
  simp only [WebviewWindowHandle.emit, if_pos _hloc, List.map_map]
  rw [key]
  simp [Function.comp_def]

/-- C9 witness: on a handle with handlers 3 and 5 for tauri://created, the
stale unlisten closure for the absent handler 7 removes handler 5. -/
theorem stale_unlisten_removes_last_witness :
    ("tauri://created" ∈ localTauriEvents ∧
     (7 : ℕ) ∉ sampleHandleTwo.listeners "tauri://created" ∧
     sampleHandleTwo.listeners "tauri://created" ≠ []) ∧
    ((localUnlisten "tauri://created" 7 sampleHandleTwo).listeners "tauri://created" =
      (sampleHandleTwo.listeners "tauri://created").dropLast ∧
     ∀ (P : Type) (payload : Option P),
      ((localUnlisten "tauri://created" 7 sampleHandleTwo).emit "tauri://created"
          payload).localInvocations.map Prod.fst =
        (sampleHandleTwo.listeners "tauri://created").dropLast) :=
  ⟨⟨by simp [localTauriEvents], by simp [sampleHandleTwo], by simp [sampleHandleTwo]⟩,
   stale_unlisten_removes_last sampleHandleTwo "tauri://created" 7
     (by simp [localTauriEvents]) (by simp [sampleHandleTwo]) (by simp [sampleHandleTwo])⟩

/-- C3: contrary to the claim, `once` on a local event name installs the
caller's handler itself, with no self-removing wrapper: the handler stays
in the registry after an emission, so a second emission of the same local
event invokes it again.  Evaluated at the failing input: a fresh handle
labelled "main", `once("tauri://created", 7)`, then two emissions — the
first emission invokes handler 7 and leaves the registry unchanged, so the
second emission invokes handler 7 again. -/
theorem once_local_event_not_one_off :
    WebviewWindowHandle.once sampleHandle "tauri://created" 7 =
      .localReg sampleHandleAfterOnce "tauri://created" 7 ∧
    sampleHandleAfterOnce.listeners "tauri://created" = [7] ∧
    (sampleHandleAfterOnce.emit "tauri://created" (none : Option ℕ)).localInvocations =
      [(7, { event := "tauri://created", windowLabel := "main", id := -1,
             payload := none })] ∧
    (sampleHandleAfterOnce.emit "tauri://created"
        (none : Option ℕ)).localInvocations.map Prod.fst = [7] := by
  refine ⟨?_, rfl, rfl, rfl⟩
  show (WebviewWindowHandle.once sampleHandle "tauri://created" 7 =
    .localReg sampleHandleAfterOnce "tauri://created" 7)
  unfold WebviewWindowHandle.once WebviewWindowHandle._handleTauriEvent
  rw [if_pos (by simp [localTauriEvents])]
  show ListenOutcome.localReg
      { sampleHandle with listeners := fun e =>
          if e = "tauri://created" then sampleHandle.listeners e ++ [7]
          else sampleHandle.listeners e } "tauri://created" 7 =
    .localReg sampleHandleAfterOnce "tauri://created" 7
  have : ({ sampleHandle with listeners := fun e =>
      if e = "tauri://created" then sampleHandle.listeners e ++ [7]
      else sampleHandle.listeners e } : WebviewWindowHandle ℕ) =
      sampleHandleAfterOnce := by
    simp only [sampleHandle, sampleHandleAfterOnce]
    congr 1
  rw [this]

/-- C6: `getByLabel` returns null for every label absent from the current
window list; for every present label it returns a handle whose label equals
the input, and the lookup issues no `create` call. -/
theorem getByLabel_spec (windows : List String) (label : String) :
    (label ∉ windows → getByLabel ℕ windows label = (none, [])) ∧
    (label ∈ windows →
      (getByLabel ℕ windows label).2 = [] ∧
      ∃ w, (getByLabel ℕ windows label).1 = some w ∧ w.label = label) := by
  have hcond : ((getAll ℕ windows).any (fun w => w.label == label) = true) ↔
      label ∈ windows := by
    simp [getAll, newWebviewWindow, List.any_eq_true, List.mem_map, beq_iff_eq]
  constructor
  · intro hnot
    have hfalse : ¬((getAll ℕ windows).any (fun w => w.label == label) = true) := by
      rw [hcond]; exact hnot
    simp [getByLabel, hfalse]
  · intro hmem
    have htrue : (getAll ℕ windows).any (fun w => w.label == label) = true :=
      hcond.mpr hmem
    refine ⟨?_, ⟨(newWebviewWindow ℕ label true).1, ?_, rfl⟩⟩ <;>
      simp [getByLabel, htrue, newWebviewWindow]

/-- C6 witness: lookup in the window list ["main", "settings"] of the
absent label "other" and the present label "main". -/
theorem getByLabel_spec_witness :
    ("other" ∉ (["main", "settings"] : List String) ∧
      getByLabel ℕ ["main", "settings"] "other" = (none, [])) ∧
    ("main" ∈ (["main", "settings"] : List String) ∧
      ((getByLabel ℕ ["main", "settings"] "main").2 = [] ∧
       ∃ w, (getByLabel ℕ ["main", "settings"] "main").1 = some w ∧
         w.label = "main")) :=
  ⟨⟨by simp, (getByLabel_spec ["main", "settings"] "other").1 (by simp)⟩,
   ⟨by simp, (getByLabel_spec ["main", "settings"] "main").2 (by simp)⟩⟩

/-- C1: the close-request listener invokes the caller's handler on a
wrapper whose prevented flag starts false; when the handler settles
successfully having called `preventDefault()`, no `close` call is issued,
and when it settles successfully without doing so, exactly one `close`
call is issued. -/
theorem onCloseRequested_prevent_gates_close {P E : Type}
    (handler : CloseRequestedEvent → Except E CloseRequestedEvent)
    (label : String) (e : JsEvent P) (evt2 : CloseRequestedEvent)
    (hok : handler (CloseRequestedEvent.ofEvent e) = .ok evt2) :
    (CloseRequestedEvent.ofEvent e).isPreventDefault = false ∧
    (evt2.isPreventDefault = true →
      onCloseRequestedDispatch handler label e = []) ∧
    (evt2.isPreventDefault = false →
      onCloseRequestedDispatch handler label e = [closeCall label]) := by
  refine ⟨rfl, ?_, ?_⟩ <;> intro hflag <;>
    simp [onCloseRequestedDispatch, hok, hflag]

/-- C1 witness: a handler that calls `preventDefault()` at a sample
close-request delivery for label "main". -/
theorem onCloseRequested_prevent_gates_close_witness :
    preventingHandler (CloseRequestedEvent.ofEvent sampleCloseEvent) =
      .ok (CloseRequestedEvent.ofEvent sampleCloseEvent).runPreventDefault ∧
    ((CloseRequestedEvent.ofEvent sampleCloseEvent).isPreventDefault = false ∧
     ((CloseRequestedEvent.ofEvent sampleCloseEvent).runPreventDefault.isPreventDefault
        = true →
       onCloseRequestedDispatch preventingHandler "main" sampleCloseEvent = []) ∧
     ((CloseRequestedEvent.ofEvent sampleCloseEvent).runPreventDefault.isPreventDefault
        = false →
       onCloseRequestedDispatch preventingHandler "main" sampleCloseEvent =
         [closeCall "main"])) :=
  ⟨rfl, onCloseRequested_prevent_gates_close preventingHandler "main" sampleCloseEvent
    (CloseRequestedEvent.ofEvent sampleCloseEvent).runPreventDefault rfl⟩

/-- C10: when the caller's handler throws or its promise rejects, the
close-request listener issues no `close` call, and the listener itself
still completes (its result type carries no error channel: the rejection
flows into a void-ed promise and reaches no caller). -/
theorem onCloseRequested_handler_failure_no_close {P E : Type}
    (handler : CloseRequestedEvent → Except E CloseRequestedEvent)
    (label : String) (e : JsEvent P) (err : E)
    (herr : handler (CloseRequestedEvent.ofEvent e) = .error err) :
    onCloseRequestedDispatch handler label e = [] := by
  simp [onCloseRequestedDispatch, herr]

/-- C10 witness: a throwing handler at the sample close-request delivery. -/
theorem onCloseRequested_handler_failure_no_close_witness :
    throwingHandler (CloseRequestedEvent.ofEvent sampleCloseEvent) =
      .error "handler exploded" ∧
    onCloseRequestedDispatch throwingHandler "main" sampleCloseEvent = [] :=
  ⟨rfl, onCloseRequested_handler_failure_no_close throwingHandler "main"
    sampleCloseEvent "handler exploded" rfl⟩

/-- C2 counterexample: with a host whose remote unlisten always fails, the
unlisten function returned by the bridge's `listen` settles with that error
— the error is surfaced to the caller as a rejection, not swallowed. -/
theorem listen_unlisten_error_surfaces :
    (listen failingUnlistenHost "my-event" (some "main")).2 =
      .ok { event := "my-event", eventId := 42 } ∧
    (Unlistener.run { event := "my-event", eventId := 42 } failingUnlistenHost).2 =
      .error "backend unlisten failure" ∧
    (Unlistener.run { event := "my-event", eventId := 42 } failingUnlistenHost).2 ≠
      .ok () := by
  refine ⟨rfl, rfl, ?_⟩
  intro hc
  exact Except.noConfusion hc

/-- C2 amended: the unlisten function returned by the bridge's `listen`
issues the remote unlisten call and propagates its outcome — including any
error — to its caller; the silent, best-effort swallowing applies only to
the internal unlisten that the bridge's `once` performs after the first
delivery, whose failure affects neither the handler's invocation nor the
callback's completion. -/
theorem listen_unlisten_propagates_error (host : EventHost) (event : String)
    (wl : Option String) (u : Unlistener)
    (hok : (listen host event wl).2 = .ok u) :
    u.run host =
      ([.unlistenC event u.eventId], host.unlistenResult event u.eventId) ∧
    ∀ (P A : Type) (handler : JsEvent P → A) (eventData : JsEvent P),
      (onceListenerCallback host event handler eventData).1 = handler eventData := by
  have hev : u.event = event := by
    simp only [listen] at hok
    rcases hres : host.listenResult event wl with err | i <;> rw [hres] at hok
    · simp [Except.map] at hok
    · simp only [Except.map, Except.ok.injEq] at hok
      rw [← hok]
  refine ⟨?_, ?_⟩
  · rw [Unlistener.run, _unlisten, hev]
  · intro P A handler eventData
    rfl

/-- C2 amended witness: the propagation conclusion applied to the failing
host at event "my-event" with registration id 42. -/
theorem listen_unlisten_propagates_error_witness :
    (listen failingUnlistenHost "my-event" (some "main")).2 =
      .ok { event := "my-event", eventId := 42 } ∧
    ((Unlistener.run { event := "my-event", eventId := 42 } failingUnlistenHost =
      ([.unlistenC "my-event" 42],
       failingUnlistenHost.unlistenResult "my-event" 42)) ∧
     ∀ (P A : Type) (handler : JsEvent P → A) (eventData : JsEvent P),
      (onceListenerCallback failingUnlistenHost "my-event" handler eventData).1 =
        handler eventData) :=
  ⟨rfl, listen_unlisten_propagates_error failingUnlistenHost "my-event" (some "main")
    { event := "my-event", eventId := 42 } rfl⟩

/-- C8: `onFileDropEvent` registers listeners on the three pairwise
distinct file-drop event names scoped to the window's label; the payloads
are normalized into the tagged union with variants drop/hover (carrying the
paths) and cancel; and the combined unlisten function issues the three
underlying unlisten calls whatever the outcome each host gives them. -/
theorem onFileDropEvent_spec (host : EventHost) (label : String)
    (r : FileDropRegistration) (hok : (onFileDropEvent host label).2 = .ok r) :
    ((onFileDropEvent host label).1 =
      [.listenC WINDOW_FILE_DROP (some label),
       .listenC WINDOW_FILE_DROP_HOVER (some label),
       .listenC WINDOW_FILE_DROP_CANCELLED (some label)]) ∧
    (WINDOW_FILE_DROP ≠ WINDOW_FILE_DROP_HOVER ∧
     WINDOW_FILE_DROP ≠ WINDOW_FILE_DROP_CANCELLED ∧
     WINDOW_FILE_DROP_HOVER ≠ WINDOW_FILE_DROP_CANCELLED) ∧
    (∀ host2 : EventHost, r.combinedUnlisten host2 =
      [.unlistenC WINDOW_FILE_DROP r.unlistenFileDrop.eventId,
       .unlistenC WINDOW_FILE_DROP_HOVER r.unlistenFileHover.eventId,
       .unlistenC WINDOW_FILE_DROP_CANCELLED r.unlistenCancel.eventId]) ∧
    (∀ e : JsEvent (List String),
      (fileDropWrapDrop e).payload = .drop e.payload ∧
      (fileDropWrapDrop e).payload.type = "drop" ∧
      (fileDropWrapHover e).payload = .hover e.payload ∧
      (fileDropWrapHover e).payload.type = "hover") ∧
    (∀ e : JsEvent Unit,
      (fileDropWrapCancel e).payload = .cancel ∧
      (fileDropWrapCancel e).payload.type = "cancel") := by
  rcases h1 : host.listenResult WINDOW_FILE_DROP (some label) with e1 | i1 <;>
    rcases h2 : host.listenResult WINDOW_FILE_DROP_HOVER (some label) with e2 | i2 <;>
    rcases h3 : host.listenResult WINDOW_FILE_DROP_CANCELLED (some label)
      with e3 | i3 <;>
    simp only [onFileDropEvent, listen, Except.map, h1, h2, h3] at hok ⊢
  all_goals first
    | exact Except.noConfusion hok
    | skip
  have hr : r = { unlistenFileDrop := { event := WINDOW_FILE_DROP, eventId := i1 },
                  unlistenFileHover := { event := WINDOW_FILE_DROP_HOVER, eventId := i2 },
                  unlistenCancel :=
                    { event := WINDOW_FILE_DROP_CANCELLED, eventId := i3 } } := by
    cases hok
    rfl
  subst hr
  refine ⟨rfl, ⟨by decide, by decide, by decide⟩, ?_, ?_, ?_⟩
  · intro host2
    rfl
  · intro e
    exact ⟨rfl, rfl, rfl, rfl⟩
  · intro e
    exact ⟨rfl, rfl⟩

/-- C8 witness: the conclusion at the failing-unlisten host, whose three
registrations succeed with id 42; the combined unlisten still issues all
three unlisten calls although every one of them fails. -/
theorem onFileDropEvent_spec_witness :
    (onFileDropEvent failingUnlistenHost "main").2 =
      .ok { unlistenFileDrop := { event := WINDOW_FILE_DROP, eventId := 42 },
            unlistenFileHover := { event := WINDOW_FILE_DROP_HOVER, eventId := 42 },
            unlistenCancel :=
              { event := WINDOW_FILE_DROP_CANCELLED, eventId := 42 } } ∧
    (((onFileDropEvent failingUnlistenHost "main").1 =
      [.listenC WINDOW_FILE_DROP (some "main"),
       .listenC WINDOW_FILE_DROP_HOVER (some "main"),
       .listenC WINDOW_FILE_DROP_CANCELLED (some "main")]) ∧
     (WINDOW_FILE_DROP ≠ WINDOW_FILE_DROP_HOVER ∧
      WINDOW_FILE_DROP ≠ WINDOW_FILE_DROP_CANCELLED ∧
      WINDOW_FILE_DROP_HOVER ≠ WINDOW_FILE_DROP_CANCELLED) ∧
     (∀ host2 : EventHost,
       FileDropRegistration.combinedUnlisten
         { unlistenFileDrop := { event := WINDOW_FILE_DROP, eventId := 42 },
           unlistenFileHover := { event := WINDOW_FILE_DROP_HOVER, eventId := 42 },
           unlistenCancel :=
             { event := WINDOW_FILE_DROP_CANCELLED, eventId := 42 } } host2 =
       [.unlistenC WINDOW_FILE_DROP 42,
        .unlistenC WINDOW_FILE_DROP_HOVER 42,
        .unlistenC WINDOW_FILE_DROP_CANCELLED 42]) ∧
     (∀ e : JsEvent (List String),
       (fileDropWrapDrop e).payload = .drop e.payload ∧
       (fileDropWrapDrop e).payload.type = "drop" ∧
       (fileDropWrapHover e).payload = .hover e.payload ∧
       (fileDropWrapHover e).payload.type = "hover") ∧
     (∀ e : JsEvent Unit,
       (fileDropWrapCancel e).payload = .cancel ∧
       (fileDropWrapCancel e).payload.type = "cancel")) :=
  ⟨rfl, onFileDropEvent_spec failingUnlistenHost "main"
    { unlistenFileDrop := { event := WINDOW_FILE_DROP, eventId := 42 },
      unlistenFileHover := { event := WINDOW_FILE_DROP_HOVER, eventId := 42 },
      unlistenCancel := { event := WINDOW_FILE_DROP_CANCELLED, eventId := 42 } }
    rfl⟩

end TauriWindow
